import Mathlib

/-!
Verification of the invoicing / cash-reconciliation core of the tr4cking
bus-operations application (module `operations`), via a shallow embedding of
the Python source in Lean 4.

Conventions of the embedding:
* Django model instances become Lean structures; querysets become `List`s.
* `DecimalField` money amounts are embedded as exact rationals (`ℚ`);
  `BigIntegerField` invoice numbers as `Int`; dates/timestamps as `Int`/`Nat`
  passed explicitly (the source reads `timezone.now()`).
* `queryset.get(...)` is embedded by `djangoGet`, which distinguishes the
  `DoesNotExist` and `MultipleObjectsReturned` outcomes of the ORM.
* Exceptions (`ValueError` and friends) become `Except String` results with
  the source's message strings.
-/

namespace Tr4cking

/-! ## Fiscal license (`Timbrado`, operations/models.py) -/

structure Timbrado where
  empresa : Option Nat
  numero : String
  fecha_inicio : Int
  fecha_fin : Int
  numero_desde : Int
  numero_hasta : Int
  punto_expedicion : String
  activo : Bool
deriving Repr, DecidableEq

/-- `self.facturas.order_by('-numero_factura').first()` over the invoice
numbers already issued on the license: the greatest element, `none` for an
empty set.  Embedded as a direct maximum computation over the list of
existing `numero_factura` values. -/
def maxNum : List Int → Option Int
  | [] => none
  | x :: xs =>
    match maxNum xs with
    | none => some x
    | some m => some (max x m)

/-- `Timbrado.get_siguiente_numero` (operations/models.py): next candidate is
`max(existing) + 1`, or `numero_desde` when the license has no invoices;
raises (`Except.error`) when the candidate exceeds `numero_hasta`. -/
def get_siguiente_numero (t : Timbrado) (nums : List Int) : Except String Int :=
  let siguiente : Int :=
    match maxNum nums with
    | some ultima => ultima + 1
    | none => t.numero_desde
  if t.numero_hasta < siguiente then
    Except.error "Se agotaron los números de factura para este timbrado"
  else
    Except.ok siguiente

/-- State of repeated sequential allocation against one license: after each
successful `get_siguiente_numero` the resulting invoice is persisted, so its
number joins the license's invoice set; a failed call changes nothing. -/
def allocState (t : Timbrado) : Nat → List Int
  | 0 => []
  | k + 1 =>
    let s := allocState t k
    match get_siguiente_numero t s with
    | Except.ok n => s ++ [n]
    | Except.error _ => s

/-- The contiguous block `[d, d+1, …, d+n-1]`. -/
def upTo (d : Int) : Nat → List Int
  | 0 => []
  | n + 1 => upTo d n ++ [d + n]

/-- Number of allocatable values in the license window. -/
def capacidad (t : Timbrado) : Nat := (t.numero_hasta - t.numero_desde + 1).toNat

theorem maxNum_append_singleton (l : List Int) (a : Int) :
    maxNum (l ++ [a]) =
      some (match maxNum l with | none => a | some m => max m a) := by
  induction l with
  | nil => simp [maxNum]
  | cons x xs ih =>
    show (match maxNum (xs ++ [a]) with
      | none => some x
      | some m => some (max x m)) = _
    rw [ih]
    cases h : maxNum xs with
    | none => simp [maxNum, h]
    | some m => simp [maxNum, h, max_assoc]

theorem maxNum_upTo (d : Int) (n : Nat) :
    maxNum (upTo d (n + 1)) = some (d + n) := by
  induction n with
  | zero => simp [upTo, maxNum]
  | succ n ih =>
    show maxNum (upTo d (n + 1) ++ [d + (n + 1)]) = _
    rw [maxNum_append_singleton, ih]
    have h : d + (n : Int) ≤ d + ((n : Int) + 1) := by omega
    simp only [max_eq_right h]
    norm_num

theorem mem_upTo {d x : Int} {n : Nat} (h : x ∈ upTo d n) :
    d ≤ x ∧ x < d + n := by
  induction n with
  | zero => simp [upTo] at h
  | succ n ih =>
    simp only [upTo, List.mem_append, List.mem_singleton] at h
    rcases h with h | h
    · have := ih h
      omega
    · omega

theorem upTo_pairwise_lt (d : Int) (n : Nat) :
    (upTo d n).Pairwise (· < ·) := by
  induction n with
  | zero => simp [upTo]
  | succ n ih =>
    refine List.pairwise_append.mpr ⟨ih, List.pairwise_singleton _ _, ?_⟩
    intro x hx y hy
    rcases List.mem_singleton.1 hy with rfl
    exact (mem_upTo hx).2

theorem allocState_eq (t : Timbrado) (k : Nat) :
    allocState t k = upTo t.numero_desde (min k (capacidad t)) := by
  induction k with
  | zero => simp [allocState, upTo]
  | succ k ih =>
    by_cases hk : k < capacidad t
    · have hmin : min k (capacidad t) = k := by omega
      have hmin1 : min (k + 1) (capacidad t) = k + 1 := by omega
      rw [hmin] at ih
      have hcap : (k : Int) < t.numero_hasta - t.numero_desde + 1 := by
        have := hk
        unfold capacidad at this
        omega
      cases k with
      | zero =>
        have hle : ¬ t.numero_hasta < t.numero_desde := by omega
        simp [allocState, ih, get_siguiente_numero, maxNum, hle, hmin1, upTo]
      | succ j =>
        have hmax := maxNum_upTo t.numero_desde j
        have hle : ¬ t.numero_hasta < t.numero_desde + (j : Int) + 1 := by
          push_cast at hcap
          omega
        rw [hmin1]
        show (match get_siguiente_numero t (allocState t (j + 1)) with
          | Except.ok n => allocState t (j + 1) ++ [n]
          | Except.error _ => allocState t (j + 1)) = _
        rw [ih]
        simp only [get_siguiente_numero, hmax]
        rw [if_neg hle]
        show upTo t.numero_desde (j + 1) ++ [t.numero_desde + (j : Int) + 1] = _
        show _ = upTo t.numero_desde (j + 1) ++ [t.numero_desde + ((j : Nat) + 1 : Nat)]
        congr 1
        push_cast
        ring_nf
    · have hmin : min k (capacidad t) = capacidad t := by omega
      have hmin1 : min (k + 1) (capacidad t) = capacidad t := by omega
      rw [hmin] at ih
      rw [hmin1]
      show (match get_siguiente_numero t (allocState t k) with
        | Except.ok n => allocState t k ++ [n]
        | Except.error _ => allocState t k) = _
      rw [ih]
      cases hcap : capacidad t with
      | zero =>
        have hez : t.numero_hasta - t.numero_desde + 1 ≤ 0 := by
          by_contra hcon
          have : (t.numero_hasta - t.numero_desde + 1).toNat ≠ 0 := by omega
          exact this (by simpa [capacidad] using hcap)
        have : t.numero_hasta < t.numero_desde := by omega
        simp [upTo, get_siguiente_numero, maxNum, this]
      | succ c =>
        have hval : t.numero_hasta - t.numero_desde + 1 = (c : Int) + 1 := by
          have : (t.numero_hasta - t.numero_desde + 1).toNat = c + 1 := by
            simpa [capacidad] using hcap
          omega
        have hmax := maxNum_upTo t.numero_desde c
        have : t.numero_hasta < t.numero_desde + (c : Int) + 1 := by omega
        simp only [get_siguiente_numero, hmax]
        rw [if_pos (by omega)]

/-! ## Invoice totals (`Factura.calcular_totales`, operations/models.py) -/

/-- One `DetalleFactura` row (operations/models.py). -/
structure DetalleFactura where
  cantidad : ℚ
  descripcion : String
  precio_unitario : ℚ
  tasa_iva : Int
  subtotal : ℚ
  pasaje : Option Nat
  encomienda : Option Nat
deriving Repr, DecidableEq

/-- The monetary totals fields of a `Factura` row, in declaration order. -/
structure FacturaTotales where
  subtotal_exenta : ℚ
  subtotal_iva5 : ℚ
  subtotal_iva10 : ℚ
  total : ℚ
  iva_5 : ℚ
  iva_10 : ℚ
  total_iva : ℚ
deriving Repr, DecidableEq

/-- `Factura.calcular_totales` (operations/models.py): zero the three band
subtotals, accumulate each line's `subtotal` into the band selected by its
`tasa_iva` (0 / 5 / 10, anything else ignored), then extract the included
VAT (`iva_5 = subtotal_iva5 * 5 / 105`, `iva_10 = subtotal_iva10 * 10 / 110`),
`total_iva = iva_5 + iva_10` and `total` as the sum of the three band
subtotals.  The Python `Decimal` arithmetic is embedded as exact rationals;
the method applies no quantisation of its own. -/
def calcular_totales (detalles : List DetalleFactura) : FacturaTotales :=
  let acc := detalles.foldl
    (fun (acc : ℚ × ℚ × ℚ) d =>
      if d.tasa_iva = 0 then (acc.1 + d.subtotal, acc.2.1, acc.2.2)
      else if d.tasa_iva = 5 then (acc.1, acc.2.1 + d.subtotal, acc.2.2)
      else if d.tasa_iva = 10 then (acc.1, acc.2.1, acc.2.2 + d.subtotal)
      else acc)
    (0, 0, 0)
  let subtotal_exenta := acc.1
  let subtotal_iva5 := acc.2.1
  let subtotal_iva10 := acc.2.2
  let iva_5 := subtotal_iva5 * 5 / 105
  let iva_10 := subtotal_iva10 * 10 / 110
  let total_iva := iva_5 + iva_10
  let total := subtotal_exenta + subtotal_iva5 + subtotal_iva10
  ⟨subtotal_exenta, subtotal_iva5, subtotal_iva10, total, iva_5, iva_10, total_iva⟩

/-- Sum of the line subtotals of a given tax band. -/
def bandSum (detalles : List DetalleFactura) (tasa : Int) : ℚ :=
  ((detalles.filter (fun d => d.tasa_iva = tasa)).map (fun d => d.subtotal)).sum

theorem calcular_totales_fold (detalles : List DetalleFactura) (a b c : ℚ) :
    detalles.foldl
      (fun (acc : ℚ × ℚ × ℚ) d =>
        if d.tasa_iva = 0 then (acc.1 + d.subtotal, acc.2.1, acc.2.2)
        else if d.tasa_iva = 5 then (acc.1, acc.2.1 + d.subtotal, acc.2.2)
        else if d.tasa_iva = 10 then (acc.1, acc.2.1, acc.2.2 + d.subtotal)
        else acc)
      (a, b, c) =
      (a + bandSum detalles 0, b + bandSum detalles 5, c + bandSum detalles 10) := by
  induction detalles generalizing a b c with
  | nil => simp [bandSum]
  | cons d rest ih =>
    simp only [List.foldl_cons]
    by_cases h0 : d.tasa_iva = 0
    · rw [if_pos h0, ih]
      simp [bandSum, List.filter_cons, h0, add_assoc]
    · rw [if_neg h0]
      by_cases h5 : d.tasa_iva = 5
      · rw [if_pos h5, ih]
        simp [bandSum, List.filter_cons, h0, h5, add_assoc]
      · rw [if_neg h5]
        by_cases h10 : d.tasa_iva = 10
        · rw [if_pos h10, ih]
          simp [bandSum, List.filter_cons, h0, h5, h10, add_assoc]
        · rw [if_neg h10, ih]
          simp [bandSum, List.filter_cons, h0, h5, h10]

/-- Round a rational to two decimal places. -/
def round2 (q : ℚ) : ℚ := (round (q * 100) : ℤ) / 100

theorem get_siguiente_upTo_lt (t : Timbrado) (k : Nat) (hk : k < capacidad t) :
    get_siguiente_numero t (upTo t.numero_desde k) =
      Except.ok (t.numero_desde + (k : Int)) := by
  have hcap : (k : Int) < t.numero_hasta - t.numero_desde + 1 := by
    unfold capacidad at hk
    omega
  cases k with
  | zero =>
    have h : ¬ t.numero_hasta < t.numero_desde := by omega
    simp [upTo, get_siguiente_numero, maxNum, h]
  | succ j =>
    have hmax := maxNum_upTo t.numero_desde j
    have h : ¬ t.numero_hasta < t.numero_desde + (j : Int) + 1 := by
      push_cast at hcap
      omega
    simp only [get_siguiente_numero, hmax]
    rw [if_neg h]
    congr 1
    push_cast
    ring

theorem get_siguiente_upTo_cap (t : Timbrado) :
    get_siguiente_numero t (upTo t.numero_desde (capacidad t)) =
      Except.error "Se agotaron los números de factura para este timbrado" := by
  cases hcap : capacidad t with
  | zero =>
    have h : t.numero_hasta < t.numero_desde := by
      unfold capacidad at hcap
      omega
    simp [upTo, get_siguiente_numero, maxNum, h]
  | succ c =>
    have hval : t.numero_hasta = t.numero_desde + (c : Int) := by
      unfold capacidad at hcap
      omega
    have hmax := maxNum_upTo t.numero_desde c
    simp only [get_siguiente_numero, hmax]
    rw [if_pos (by omega)]

/-- C1: for every fiscal license, the next-number operation returns
`max(existing) + 1` when invoices exist and `numero_desde` otherwise, failing
with the sequence-exhausted error when the candidate exceeds `numero_hasta`;
consequently `k` sequential allocations starting from an invoice-free license
produce exactly the strictly increasing contiguous block
`numero_desde, numero_desde+1, …` (no duplicates), the `k`-th call returning
`numero_desde + k` while `k` is within the window's capacity and the
exhaustion error on every call thereafter. -/
theorem C1_secuencia_fiscal (t : Timbrado) (k : Nat) :
    allocState t k = upTo t.numero_desde (min k (capacidad t)) ∧
    (allocState t k).Pairwise (· < ·) ∧
    (k < capacidad t →
      get_siguiente_numero t (allocState t k) =
        Except.ok (t.numero_desde + (k : Int))) ∧
    (capacidad t ≤ k →
      get_siguiente_numero t (allocState t k) =
        Except.error "Se agotaron los números de factura para este timbrado") := by
  have heq := allocState_eq t k
  refine ⟨heq, ?_, ?_, ?_⟩
  · rw [heq]
    exact upTo_pairwise_lt _ _
  · intro hk
    rw [heq, min_eq_left (by omega)]
    exact get_siguiente_upTo_lt t k hk
  · intro hk
    rw [heq, min_eq_right (by omega)]
    exact get_siguiente_upTo_cap t

/-- Witness for C1 at the license with window `[1, 3]` (spec Scenario A):
after two allocations the third call yields 3, and from the third allocation
on every call raises the exhaustion error. -/
theorem C1_secuencia_fiscal_witness :
    get_siguiente_numero ⟨none, "12345678", 0, 0, 1, 3, "001-001", true⟩
        (allocState ⟨none, "12345678", 0, 0, 1, 3, "001-001", true⟩ 2) =
      Except.ok 3 ∧
    get_siguiente_numero ⟨none, "12345678", 0, 0, 1, 3, "001-001", true⟩
        (allocState ⟨none, "12345678", 0, 0, 1, 3, "001-001", true⟩ 5) =
      Except.error "Se agotaron los números de factura para este timbrado" := by
  constructor
  · have h :=
      (C1_secuencia_fiscal ⟨none, "12345678", 0, 0, 1, 3, "001-001", true⟩ 2).2.2.1
        (by decide)
    have e : (⟨none, "12345678", 0, 0, 1, 3, "001-001", true⟩ : Timbrado).numero_desde +
        ((2 : Nat) : Int) = 3 := by decide
    rw [e] at h
    exact h
  · exact
      (C1_secuencia_fiscal ⟨none, "12345678", 0, 0, 1, 3, "001-001", true⟩ 5).2.2.2
        (by decide)

/-- C2 counterexample: the totals recomputation does **not** round the
extracted VAT to two decimals.  For a single 5%-band line of subtotal 1.00
the stored `iva_5` is the exact quotient `1/21 = 0.0476…`, whereas rounding
`subtotal_iva5 * 5 / 105` to two decimals would give `0.05`. -/
theorem C2_contraejemplo_redondeo :
    (calcular_totales [⟨1, "Pasaje", 1, 5, 1, none, none⟩]).iva_5 = 1 / 21 ∧
    round2 ((calcular_totales [⟨1, "Pasaje", 1, 5, 1, none, none⟩]).subtotal_iva5
        * 5 / 105) = 1 / 20 ∧
    (1 : ℚ) / 21 ≠ 1 / 20 := by
  refine ⟨by norm_num [calcular_totales], ?_, by norm_num⟩
  have hsub : (calcular_totales [⟨1, "Pasaje", 1, 5, 1, none, none⟩]).subtotal_iva5 = 1 := by
    norm_num [calcular_totales]
  rw [hsub]
  have hround : round ((1 : ℚ) * 5 / 105 * 100) = 5 := by
    rw [round_eq]
    norm_num
  unfold round2
  rw [hround]
  norm_num

/-- C2 (amended): for every invoice whose lines carry tax bands in
`{0, 5, 10}`, recomputing the totals yields the band subtotals as the sums of
line subtotals per band, `iva_5 = subtotal_iva5 * 5/105` and
`iva_10 = subtotal_iva10 * 10/110` computed exactly (no 2-decimal rounding is
applied by the recomputation), `total_iva = iva_5 + iva_10`, and
`total = subtotal_exenta + subtotal_iva5 + subtotal_iva10` (tax embedded, not
added on top). -/
theorem C2_totales_factura (detalles : List DetalleFactura)
    (_h : ∀ d ∈ detalles, d.tasa_iva = 0 ∨ d.tasa_iva = 5 ∨ d.tasa_iva = 10) :
    (calcular_totales detalles).subtotal_exenta = bandSum detalles 0 ∧
    (calcular_totales detalles).subtotal_iva5 = bandSum detalles 5 ∧
    (calcular_totales detalles).subtotal_iva10 = bandSum detalles 10 ∧
    (calcular_totales detalles).iva_5 =
      (calcular_totales detalles).subtotal_iva5 * 5 / 105 ∧
    (calcular_totales detalles).iva_10 =
      (calcular_totales detalles).subtotal_iva10 * 10 / 110 ∧
    (calcular_totales detalles).total_iva =
      (calcular_totales detalles).iva_5 + (calcular_totales detalles).iva_10 ∧
    (calcular_totales detalles).total =
      (calcular_totales detalles).subtotal_exenta +
        (calcular_totales detalles).subtotal_iva5 +
        (calcular_totales detalles).subtotal_iva10 := by
  have hfold := calcular_totales_fold detalles 0 0 0
  simp only [calcular_totales, hfold]
  norm_num

/-- Witness for C2 at a two-line invoice (an exempt fare of 30000 and a
10%-band parcel of 110000, spec Scenario C): the grand total is the sum of the
band subtotals and the included VAT is `110000 * 10 / 110 = 10000`. -/
theorem C2_totales_factura_witness :
    (calcular_totales
        [⟨1, "Pasaje Central - Sur", 30000, 0, 30000, some 1, none⟩,
         ⟨1, "Encomienda caja - ENC1", 110000, 10, 110000, none, some 1⟩]).total =
      (calcular_totales
        [⟨1, "Pasaje Central - Sur", 30000, 0, 30000, some 1, none⟩,
         ⟨1, "Encomienda caja - ENC1", 110000, 10, 110000, none, some 1⟩]).subtotal_exenta +
      (calcular_totales
        [⟨1, "Pasaje Central - Sur", 30000, 0, 30000, some 1, none⟩,
         ⟨1, "Encomienda caja - ENC1", 110000, 10, 110000, none, some 1⟩]).subtotal_iva5 +
      (calcular_totales
        [⟨1, "Pasaje Central - Sur", 30000, 0, 30000, some 1, none⟩,
         ⟨1, "Encomienda caja - ENC1", 110000, 10, 110000, none, some 1⟩]).subtotal_iva10 ∧
    (calcular_totales
        [⟨1, "Pasaje Central - Sur", 30000, 0, 30000, some 1, none⟩,
         ⟨1, "Encomienda caja - ENC1", 110000, 10, 110000, none, some 1⟩]).iva_10 = 10000 := by
  have h := C2_totales_factura
    [⟨1, "Pasaje Central - Sur", 30000, 0, 30000, some 1, none⟩,
     ⟨1, "Encomienda caja - ENC1", 110000, 10, 110000, none, some 1⟩]
    (by decide)
  refine ⟨h.2.2.2.2.2.2, ?_⟩
  rw [h.2.2.2.2.1, h.2.2.1]
  norm_num [bandSum]

/-! ## Cash sessions (`SesionCaja`, `MovimientoCaja`, operations/models.py;
cash views, operations/views.py) -/

/-- One `SesionCaja` row (operations/models.py), `id` first, then the fields
in declaration order. -/
structure SesionCaja where
  id : Nat
  cajero : Nat
  fecha_apertura : Nat
  monto_apertura : ℚ
  fecha_cierre : Option Nat
  monto_cierre_esperado : Option ℚ
  monto_cierre_real : Option ℚ
  diferencia : Option ℚ
  estado : String
  observaciones : String
deriving Repr, DecidableEq

/-- One `MovimientoCaja` row (operations/models.py): `sesion`/`factura` are
foreign keys embedded as ids. -/
structure MovimientoCaja where
  sesion : Nat
  tipo : String
  concepto : String
  monto : ℚ
  descripcion : String
  factura : Option Nat
deriving Repr, DecidableEq

/-- Outcomes of the Django ORM `queryset.get(...)`. -/
inductive GetError where
  | doesNotExist
  | multipleObjectsReturned
deriving Repr, DecidableEq

instance {ε α : Type} [DecidableEq ε] [DecidableEq α] : DecidableEq (Except ε α) :=
  fun x y =>
    match x, y with
    | Except.ok a, Except.ok b =>
        if h : a = b then isTrue (by rw [h])
        else isFalse (fun hc => h (Except.ok.inj hc))
    | Except.ok _, Except.error _ => isFalse (fun hc => Except.noConfusion hc)
    | Except.error _, Except.ok _ => isFalse (fun hc => Except.noConfusion hc)
    | Except.error e, Except.error f =>
        if h : e = f then isTrue (by rw [h])
        else isFalse (fun hc => h (Except.error.inj hc))

/-- `Model.objects.get(...)`: exactly one match is returned; zero matches
raise `DoesNotExist`; several raise `MultipleObjectsReturned`. -/
def djangoGet {α : Type} (l : List α) (p : α → Bool) : Except GetError α :=
  match l.filter p with
  | [] => Except.error GetError.doesNotExist
  | [x] => Except.ok x
  | _ :: _ :: _ => Except.error GetError.multipleObjectsReturned

/-- The lookup filter `cajero=<user>, estado='abierta'` used by every cash
view and by `anular_factura`. -/
def abiertaDe (cajero : Nat) (s : SesionCaja) : Bool :=
  s.cajero == cajero && s.estado == "abierta"

/-- `SesionCaja.total_ingresos`: SQL `Sum` of the amounts of this session's
movements with `tipo='ingreso'` (0 when there are none), embedded as a fold. -/
def total_ingresos (s : SesionCaja) (movimientos : List MovimientoCaja) : ℚ :=
  (movimientos.filter (fun m => m.sesion == s.id && m.tipo == "ingreso")).foldl
    (fun acc m => acc + m.monto) 0

/-- `SesionCaja.total_egresos`: SQL `Sum` over `tipo='egreso'`. -/
def total_egresos (s : SesionCaja) (movimientos : List MovimientoCaja) : ℚ :=
  (movimientos.filter (fun m => m.sesion == s.id && m.tipo == "egreso")).foldl
    (fun acc m => acc + m.monto) 0

/-- `SesionCaja.calcular_cierre`: expected closing amount. -/
def calcular_cierre (s : SesionCaja) (movimientos : List MovimientoCaja) : ℚ :=
  s.monto_apertura + total_ingresos s movimientos - total_egresos s movimientos

/-- `SesionCaja.cerrar`: computes the expected close, stores the counted
amount, the variance `monto_real - esperado`, the close timestamp, flips the
status to `cerrada` and overwrites the notes. -/
def cerrar (s : SesionCaja) (movimientos : List MovimientoCaja) (monto_real : ℚ)
    (observaciones : String) (now : Nat) : SesionCaja :=
  let esperado := calcular_cierre s movimientos
  { s with
    monto_cierre_esperado := some esperado
    monto_cierre_real := some monto_real
    diferencia := some (monto_real - esperado)
    fecha_cierre := some now
    estado := "cerrada"
    observaciones := observaciones }

/-- `CierreCajaView.form_valid` (operations/views.py): look up the caller's
open session (`SesionCaja.objects.get(cajero=user, estado='abierta')`) and
close it; when the lookup finds nothing the view reports
"No se encontró sesión de caja abierta." and changes nothing. -/
def close_session (sesiones : List SesionCaja) (movimientos : List MovimientoCaja)
    (cajero : Nat) (monto_real : ℚ) (observaciones : String) (now : Nat) :
    Except String (List SesionCaja) :=
  match djangoGet sesiones (abiertaDe cajero) with
  | Except.ok sesion =>
      Except.ok (sesiones.map fun s =>
        if s.id == sesion.id then cerrar sesion movimientos monto_real observaciones now
        else s)
  | Except.error GetError.doesNotExist =>
      Except.error "No se encontró sesión de caja abierta."
  | Except.error GetError.multipleObjectsReturned =>
      Except.error "MultipleObjectsReturned"

theorem foldl_add_eq_sum {α : Type} (l : List α) (f : α → ℚ) (a : ℚ) :
    l.foldl (fun acc m => acc + f m) a = a + (l.map f).sum := by
  induction l generalizing a with
  | nil => simp
  | cons x xs ih => simp [ih, add_assoc]

/-- C5: closing a session records as expected amount
`monto_apertura + Σ(income movements) − Σ(egress movements)` and as variance
`counted − expected`; the status becomes closed and the close timestamp is
stamped.  Concretely (spec Scenario B): opening 100000, income 50000, egress
20000 give expected 130000, and counting 130000 gives variance 0. -/
theorem C5_esperado_y_diferencia (s : SesionCaja) (movimientos : List MovimientoCaja)
    (monto_real : ℚ) (observaciones : String) (now : Nat) :
    (cerrar s movimientos monto_real observaciones now).monto_cierre_esperado =
      some (s.monto_apertura +
        ((movimientos.filter (fun m => m.sesion == s.id && m.tipo == "ingreso")).map
            (fun m => m.monto)).sum -
        ((movimientos.filter (fun m => m.sesion == s.id && m.tipo == "egreso")).map
            (fun m => m.monto)).sum) ∧
    (cerrar s movimientos monto_real observaciones now).diferencia =
      some (monto_real - (s.monto_apertura +
        ((movimientos.filter (fun m => m.sesion == s.id && m.tipo == "ingreso")).map
            (fun m => m.monto)).sum -
        ((movimientos.filter (fun m => m.sesion == s.id && m.tipo == "egreso")).map
            (fun m => m.monto)).sum)) ∧
    (cerrar s movimientos monto_real observaciones now).monto_cierre_real =
      some monto_real ∧
    (cerrar s movimientos monto_real observaciones now).estado = "cerrada" ∧
    (cerrar s movimientos monto_real observaciones now).fecha_cierre = some now ∧
    (cerrar ⟨1, 1, 0, 100000, none, none, none, none, "abierta", ""⟩
        [⟨1, "ingreso", "venta_pasaje", 50000, "Pasaje 001-001-0000001", some 1⟩,
         ⟨1, "egreso", "gasto", 20000, "Nafta", none⟩]
        130000 "" 7).monto_cierre_esperado = some 130000 ∧
    (cerrar ⟨1, 1, 0, 100000, none, none, none, none, "abierta", ""⟩
        [⟨1, "ingreso", "venta_pasaje", 50000, "Pasaje 001-001-0000001", some 1⟩,
         ⟨1, "egreso", "gasto", 20000, "Nafta", none⟩]
        130000 "" 7).diferencia = some 0 := by
  refine ⟨?_, ?_, rfl, rfl, rfl, ?_, ?_⟩
  · simp [cerrar, calcular_cierre, total_ingresos, total_egresos, foldl_add_eq_sum]
  · simp [cerrar, calcular_cierre, total_ingresos, total_egresos, foldl_add_eq_sum]
  · simp [cerrar, calcular_cierre, total_ingresos, total_egresos]
    norm_num
  · simp [cerrar, calcular_cierre, total_ingresos, total_egresos]
    norm_num

/-- C4: when a cashier holds exactly one open session, the close operation
closes it, recording variance `counted − expected`; a second close attempt by
the same cashier fails (the open-session lookup finds nothing, the view's
"session already closed" condition) and, returning an error, alters none of
the values stored by the first close. -/
theorem C4_doble_cierre (sesiones : List SesionCaja) (movs movs2 : List MovimientoCaja)
    (cajero : Nat) (r1 r2 : ℚ) (o1 o2 : String) (n1 n2 : Nat) (s : SesionCaja)
    (hs : sesiones.filter (abiertaDe cajero) = [s]) :
    close_session sesiones movs cajero r1 o1 n1 =
      Except.ok (sesiones.map fun x =>
        if x.id == s.id then cerrar s movs r1 o1 n1 else x) ∧
    cerrar s movs r1 o1 n1 ∈
      (sesiones.map fun x => if x.id == s.id then cerrar s movs r1 o1 n1 else x) ∧
    (cerrar s movs r1 o1 n1).diferencia = some (r1 - calcular_cierre s movs) ∧
    (cerrar s movs r1 o1 n1).monto_cierre_esperado = some (calcular_cierre s movs) ∧
    close_session
        (sesiones.map fun x => if x.id == s.id then cerrar s movs r1 o1 n1 else x)
        movs2 cajero r2 o2 n2 =
      Except.error "No se encontró sesión de caja abierta." := by
  have hget : djangoGet sesiones (abiertaDe cajero) = Except.ok s := by
    unfold djangoGet
    rw [hs]
  have hmem : s ∈ sesiones.filter (abiertaDe cajero) := by
    rw [hs]
    exact List.mem_singleton_self s
  have huniq : ∀ x ∈ sesiones, abiertaDe cajero x = true → x = s := by
    intro x hx hpx
    have hxf : x ∈ sesiones.filter (abiertaDe cajero) := List.mem_filter.mpr ⟨hx, hpx⟩
    rw [hs] at hxf
    exact List.mem_singleton.mp hxf
  refine ⟨?_, ?_, rfl, rfl, ?_⟩
  · unfold close_session
    rw [hget]
  · have hsmem : s ∈ sesiones := (List.mem_filter.mp hmem).1
    have hmap := List.mem_map_of_mem
      (fun x => if x.id == s.id then cerrar s movs r1 o1 n1 else x) hsmem
    simpa using hmap
  · unfold close_session
    have hfil : (sesiones.map fun x =>
        if x.id == s.id then cerrar s movs r1 o1 n1 else x).filter
          (abiertaDe cajero) = [] := by
      rw [List.filter_eq_nil_iff]
      intro y hy
      obtain ⟨x, hx, rfl⟩ := List.mem_map.mp hy
      by_cases hid : (x.id == s.id) = true
      · rw [if_pos hid]
        simp [abiertaDe, cerrar]
      · rw [if_neg hid]
        intro hcon
        exact hid (by rw [huniq x hx hcon]; exact beq_self_eq_true _)
    unfold djangoGet
    rw [hfil]

/-- Witness for C4: a session opened with 100000 closes counting 100000 and a
second close attempt by the same cashier fails with the no-open-session
error. -/
theorem C4_doble_cierre_witness :
    close_session [⟨1, 1, 0, 100000, none, none, none, none, "abierta", ""⟩] [] 1
        100000 "" 5 =
      Except.ok
        [cerrar ⟨1, 1, 0, 100000, none, none, none, none, "abierta", ""⟩ [] 100000 "" 5] ∧
    close_session
        [cerrar ⟨1, 1, 0, 100000, none, none, none, none, "abierta", ""⟩ [] 100000 "" 5]
        [] 1 100000 "" 6 =
      Except.error "No se encontró sesión de caja abierta." := by
  have h := C4_doble_cierre
    [⟨1, 1, 0, 100000, none, none, none, none, "abierta", ""⟩] [] [] 1
    100000 100000 "" "" 5 6
    ⟨1, 1, 0, 100000, none, none, none, none, "abierta", ""⟩ (by decide)
  exact ⟨by simpa using h.1, by simpa using h.2.2.2.2⟩

/-! ## Manual cash movements (`MovimientoCajaForm`, operations/forms.py;
`MovimientoCajaCreateView`, operations/views.py) -/

/-- The `concepto` choices `MovimientoCajaForm.__init__` restricts manual
movements to. -/
def conceptosManuales : List String := ["gasto", "retiro", "deposito", "otro"]

/-- The `tipo` choices of `MovimientoCaja`. -/
def tiposMovimiento : List String := ["ingreso", "egreso"]

/-- Validation of a `DecimalField(max_digits, decimal_places)` bound form
field: the value carries at most `decimal_places` decimals and at most
`max_digits` digits in total.  No minimum value is configured anywhere on the
form or the model. -/
def decimalFieldOk (max_digits decimal_places : Nat) (q : ℚ) : Bool :=
  decide (q.den ∣ 10 ^ decimal_places) &&
  decide (q.num.natAbs * (10 ^ decimal_places / q.den) < 10 ^ max_digits)

/-- `MovimientoCajaForm.is_valid()`: `tipo` and `concepto` must be among the
choices, `monto` must pass the `DecimalField(15, 2)` validation (sign
unrestricted), `descripcion` is a required `CharField(max_length=255)`. -/
def movimientoFormValido (tipo concepto : String) (monto : ℚ)
    (descripcion : String) : Bool :=
  tiposMovimiento.contains tipo &&
  conceptosManuales.contains concepto &&
  decimalFieldOk 15 2 monto &&
  (!descripcion.isEmpty) && (descripcion.length ≤ 255)

/-- `MovimientoCajaCreateView.form_valid` (operations/views.py): with a valid
form, look up the caller's open session and append the movement exactly as
submitted; without an open session report "No tiene caja abierta." and record
nothing. -/
def movimiento_create (sesiones : List SesionCaja) (movimientos : List MovimientoCaja)
    (cajero : Nat) (tipo concepto : String) (monto : ℚ) (descripcion : String) :
    Except String (List MovimientoCaja) :=
  if movimientoFormValido tipo concepto monto descripcion then
    match djangoGet sesiones (abiertaDe cajero) with
    | Except.ok sesion =>
        Except.ok (movimientos ++ [⟨sesion.id, tipo, concepto, monto, descripcion, none⟩])
    | Except.error GetError.doesNotExist => Except.error "No tiene caja abierta."
    | Except.error GetError.multipleObjectsReturned =>
        Except.error "MultipleObjectsReturned"
  else
    Except.error "Formulario inválido."

/-- C6 counterexample: a strictly negative amount is **not** rejected.  With
an open session, posting a manual egress of −5 passes form validation and is
recorded verbatim; the code has no `InvalidAmount`-style positivity check on
`MovimientoCajaForm`, `MovimientoCaja.monto` or the view. -/
theorem C6_contraejemplo_monto_negativo :
    movimiento_create [⟨1, 1, 0, 100000, none, none, none, none, "abierta", ""⟩] [] 1
        "egreso" "gasto" (-5) "Ajuste negativo" =
      Except.ok [⟨1, "egreso", "gasto", -5, "Ajuste negativo", none⟩] := by
  decide

/-- C6 (amended): posting a cash movement records it exactly as submitted
whenever the form passes Django's generic validation (choices, decimal shape,
required description) and the cashier has an open session; the amount's sign
is conveyed solely by `tipo`, and **no** strict-positivity check exists — a
zero or negative `monto` passes validation and is recorded too. -/
theorem C6_movimiento_registrado (sesiones : List SesionCaja)
    (movimientos : List MovimientoCaja) (cajero : Nat) (tipo concepto : String)
    (monto : ℚ) (descripcion : String) (s : SesionCaja)
    (hval : movimientoFormValido tipo concepto monto descripcion = true)
    (hs : sesiones.filter (abiertaDe cajero) = [s]) :
    movimiento_create sesiones movimientos cajero tipo concepto monto descripcion =
      Except.ok (movimientos ++ [⟨s.id, tipo, concepto, monto, descripcion, none⟩]) := by
  unfold movimiento_create
  rw [if_pos hval]
  unfold djangoGet
  rw [hs]

/-- Witness for C6 (amended) at a concrete zero-amount movement: it passes
validation and is recorded. -/
theorem C6_movimiento_registrado_witness :
    movimiento_create [⟨1, 1, 0, 100000, none, none, none, none, "abierta", ""⟩] [] 1
        "ingreso" "otro" 0 "Monto cero aceptado" =
      Except.ok [⟨1, "ingreso", "otro", 0, "Monto cero aceptado", none⟩] := by
  have h := C6_movimiento_registrado
    [⟨1, 1, 0, 100000, none, none, none, none, "abierta", ""⟩] [] 1
    "ingreso" "otro" 0 "Monto cero aceptado"
    ⟨1, 1, 0, 100000, none, none, none, none, "abierta", ""⟩
    (by decide) (by decide)
  simpa using h

/-! ## Session opening (`AperturaCajaView`, operations/views.py) -/

/-- `AperturaCajaView.get`: the rendering of the opening form is refused
("Ya tiene una caja abierta.") when the cashier already holds an open
session. -/
def apertura_get_blocks (sesiones : List SesionCaja) (cajero : Nat) : Bool :=
  sesiones.any (abiertaDe cajero)

/-- `AperturaCajaView.form_valid`: the POST handler creates the session
unconditionally — it performs **no** re-check that the cashier has no open
session (the guard exists only in `get`). -/
def apertura_form_valid (sesiones : List SesionCaja) (cajero : Nat)
    (monto_apertura : ℚ) (observaciones : String) (nextId now : Nat) :
    List SesionCaja :=
  sesiones ++
    [⟨nextId, cajero, now, monto_apertura, none, none, none, none, "abierta",
      observaciones⟩]

/-- C8: evaluation at the failing input.  Cashier 1 already holds an open
session: the GET guard would block the form, yet submitting the POST directly
creates a second session, leaving cashier 1 with **two** open sessions — after
which every `SesionCaja.objects.get(cajero=..., estado='abierta')` lookup the
rest of the module relies on (close, manual movement, void reversal) raises
`MultipleObjectsReturned` instead of finding one session.  The claim's
`SessionAlreadyOpen` failure is never raised by the creating handler. -/
theorem C8_sesion_duplicada :
    apertura_get_blocks [⟨1, 1, 0, 100000, none, none, none, none, "abierta", ""⟩] 1 =
      true ∧
    ((apertura_form_valid [⟨1, 1, 0, 100000, none, none, none, none, "abierta", ""⟩] 1
        50000 "" 2 5).filter (abiertaDe 1)).length = 2 ∧
    djangoGet
        (apertura_form_valid [⟨1, 1, 0, 100000, none, none, none, none, "abierta", ""⟩] 1
          50000 "" 2 5)
        (abiertaDe 1) =
      Except.error GetError.multipleObjectsReturned := by
  decide

/-! ## Invoices and voiding (`Factura`, operations/models.py;
`FacturacionService.anular_factura`, operations/services.py;
`FacturaAnularView`, operations/views.py) -/

/-- One `Pasaje` row, restricted to the fields the void path touches. -/
structure Pasaje where
  id : Nat
  estado : String
  precio : ℚ
  fecha_cancelacion : Option Nat
  motivo_cancelacion : Option String
deriving Repr, DecidableEq

/-- One `Encomienda` row, restricted to the fields invoicing reads. -/
structure Encomienda where
  id : Nat
  codigo : String
  tipo : String
  estado : String
  precio : ℚ
deriving Repr, DecidableEq

/-- One `Factura` row (operations/models.py): foreign keys as ids, the
license's `punto_expedicion` inlined (read through `self.timbrado`), the
line set inlined as `detalles`. -/
structure Factura where
  id : Nat
  punto_expedicion : String
  numero_factura : Nat
  cliente : Nat
  condicion : String
  fecha_emision : Nat
  total : ℚ
  estado : String
  cajero : Nat
  sesion_caja : Option Nat
  motivo_anulacion : Option String
  fecha_anulacion : Option Nat
  detalles : List DetalleFactura
deriving Repr, DecidableEq

/-- `Factura.numero_completo`: `f"{punto_expedicion}-{numero_factura:07d}"`
(invoice numbers are positive, so only the nonnegative formatting arises). -/
def numero_completo (f : Factura) : String :=
  f.punto_expedicion ++ "-" ++
    (String.mk (List.replicate (7 - (toString f.numero_factura).length) '0') ++
      toString f.numero_factura)

/-- The per-ticket body of `anular_factura`'s final loop: a `Pasaje`
referenced by some line of the voided invoice is cancelled, stamped with the
cancellation time and the reason `"Factura anulada: " + motivo`; any other
ticket is untouched. -/
def cancelar_pasaje_si_detalle (detalles : List DetalleFactura) (motivo : String)
    (now : Nat) (p : Pasaje) : Pasaje :=
  if detalles.any (fun d => d.pasaje == some p.id) then
    { p with
      estado := "cancelado"
      fecha_cancelacion := some now
      motivo_cancelacion := some ("Factura anulada: " ++ motivo) }
  else p

/-- The rows `anular_factura` may write: the invoice, the ticket and parcel
registries, and the cash ledger. -/
structure AnularResult where
  factura : Factura
  pasajes : List Pasaje
  encomiendas : List Encomienda
  movimientos : List MovimientoCaja
deriving Repr, DecidableEq

/-- `FacturacionService.anular_factura` (operations/services.py): refuse an
already voided invoice; otherwise mark it voided (reason and timestamp); when
`revertir_caja`, look up the actor's open session and, if it exists, append a
single egress movement of `factura.total` with `concepto='anulacion'` linked
to the invoice — when no session is open the reversal is silently skipped
(`except SesionCaja.DoesNotExist: pass`); finally cancel every ticket
referenced by a line.  Parcels are never touched. -/
def anular_factura (f : Factura) (motivo : String) (usuario : Nat)
    (revertir_caja : Bool) (sesiones : List SesionCaja) (pasajes : List Pasaje)
    (encomiendas : List Encomienda) (movimientos : List MovimientoCaja)
    (now : Nat) : Except String AnularResult :=
  if f.estado == "anulada" then
    Except.error "La factura ya está anulada."
  else
    let f2 := { f with
      estado := "anulada"
      fecha_anulacion := some now
      motivo_anulacion := some motivo }
    let movimientosResult : Except String (List MovimientoCaja) :=
      if revertir_caja then
        match djangoGet sesiones (abiertaDe usuario) with
        | Except.ok sesion =>
            Except.ok (movimientos ++
              [⟨sesion.id, "egreso", "anulacion", f.total,
                "Anulación factura " ++ numero_completo f, some f.id⟩])
        | Except.error GetError.doesNotExist => Except.ok movimientos
        | Except.error GetError.multipleObjectsReturned =>
            Except.error "MultipleObjectsReturned"
      else Except.ok movimientos
    match movimientosResult with
    | Except.error e => Except.error e
    | Except.ok movimientos2 =>
        Except.ok
          ⟨f2, pasajes.map (cancelar_pasaje_si_detalle f.detalles motivo now),
            encomiendas, movimientos2⟩

/-- The messages `FacturaAnularView.post` emits on its success path
(operations/views.py): an unconditional success message and — whenever
`revertir_caja` was requested — an unconditional `info` message asserting
that an egress was recorded, whether or not any movement was actually
posted.  No `warning`-level message exists on this path. -/
def anular_view_messages (revertir_caja : Bool) (f : Factura) :
    List (String × String) :=
  [("success", "Factura " ++ numero_completo f ++ " anulada.")] ++
    (if revertir_caja then
      [("info", "Se registró un egreso en caja para revertir el pago.")]
    else [])

/-- C3: voiding an issued invoice while the actor holds exactly one open cash
session marks the invoice voided (reason and timestamp stored), appends
exactly one egress movement of the invoice's `total` with category
`anulacion` linked to the invoice, cancels every ticket referenced by a line
(stamping cancellation time and a reason derived from the void reason),
leaves unreferenced tickets untouched, and leaves every parcel unchanged. -/
theorem C3_anulacion_revierte (f : Factura) (motivo : String) (usuario : Nat)
    (sesiones : List SesionCaja) (pasajes : List Pasaje)
    (encomiendas : List Encomienda) (movimientos : List MovimientoCaja)
    (now : Nat) (s : SesionCaja)
    (hestado : f.estado ≠ "anulada")
    (hs : sesiones.filter (abiertaDe usuario) = [s]) :
    ∃ r, anular_factura f motivo usuario true sesiones pasajes encomiendas
        movimientos now = Except.ok r ∧
      r.factura.estado = "anulada" ∧
      r.factura.motivo_anulacion = some motivo ∧
      r.factura.fecha_anulacion = some now ∧
      r.movimientos = movimientos ++
        [⟨s.id, "egreso", "anulacion", f.total,
          "Anulación factura " ++ numero_completo f, some f.id⟩] ∧
      (∀ p ∈ pasajes, (∃ d ∈ f.detalles, d.pasaje = some p.id) →
        ∃ q ∈ r.pasajes, q.id = p.id ∧ q.estado = "cancelado" ∧
          q.fecha_cancelacion = some now ∧
          q.motivo_cancelacion = some ("Factura anulada: " ++ motivo)) ∧
      (∀ p ∈ pasajes, (∀ d ∈ f.detalles, d.pasaje ≠ some p.id) → p ∈ r.pasajes) ∧
      r.encomiendas = encomiendas := by
  have hb : (f.estado == "anulada") = false := beq_eq_false_iff_ne.mpr hestado
  have hget : djangoGet sesiones (abiertaDe usuario) = Except.ok s := by
    unfold djangoGet
    rw [hs]
  refine ⟨⟨{ f with
        estado := "anulada"
        fecha_anulacion := some now
        motivo_anulacion := some motivo },
      pasajes.map (cancelar_pasaje_si_detalle f.detalles motivo now), encomiendas,
      movimientos ++
        [⟨s.id, "egreso", "anulacion", f.total,
          "Anulación factura " ++ numero_completo f, some f.id⟩]⟩,
    ?_, rfl, rfl, rfl, rfl, ?_, ?_, rfl⟩
  · simp [anular_factura, hb, hget]
  · intro p hp hd
    obtain ⟨d, hdmem, hdp⟩ := hd
    have hany : f.detalles.any (fun d => d.pasaje == some p.id) = true := by
      rw [List.any_eq_true]
      refine ⟨d, hdmem, ?_⟩
      rw [hdp]
      exact beq_self_eq_true _
    refine ⟨cancelar_pasaje_si_detalle f.detalles motivo now p,
      List.mem_map_of_mem _ hp, ?_⟩
    simp [cancelar_pasaje_si_detalle, hany]
  · intro p hp hnone
    have hany : f.detalles.any (fun d => d.pasaje == some p.id) = false := by
      rw [List.any_eq_false]
      intro d hdmem
      exact fun hc => hnone d hdmem (by simpa using hc)
    have hfix : cancelar_pasaje_si_detalle f.detalles motivo now p = p := by
      unfold cancelar_pasaje_si_detalle
      rw [hany]
      simp
    exact hfix ▸ List.mem_map_of_mem _ hp

/-- Witness for C3: voiding a one-ticket invoice of 30000 with an open
session appends exactly one egress movement of 30000 and leaves the (empty)
parcel registry unchanged. -/
theorem C3_anulacion_revierte_witness :
    ∃ r, anular_factura
        ⟨10, "001-001", 7, 3, "contado", 1, 30000, "emitida", 1, some 1, none, none,
          [⟨1, "Pasaje Central - Sur", 30000, 0, 30000, some 1, none⟩]⟩
        "error de carga" 1 true
        [⟨1, 1, 0, 100000, none, none, none, none, "abierta", ""⟩]
        [⟨1, "vendido", 30000, none, none⟩] [] [] 9 = Except.ok r ∧
      r.factura.estado = "anulada" ∧
      r.movimientos = [] ++
        [⟨1, "egreso", "anulacion", 30000,
          "Anulación factura " ++ numero_completo
            ⟨10, "001-001", 7, 3, "contado", 1, 30000, "emitida", 1, some 1, none, none,
              [⟨1, "Pasaje Central - Sur", 30000, 0, 30000, some 1, none⟩]⟩, some 10⟩] ∧
      r.encomiendas = [] := by
  obtain ⟨r, h1, h2, _, _, h5, _, _, h8⟩ := C3_anulacion_revierte
    ⟨10, "001-001", 7, 3, "contado", 1, 30000, "emitida", 1, some 1, none, none,
      [⟨1, "Pasaje Central - Sur", 30000, 0, 30000, some 1, none⟩]⟩
    "error de carga" 1
    [⟨1, 1, 0, 100000, none, none, none, none, "abierta", ""⟩]
    [⟨1, "vendido", 30000, none, none⟩] [] [] 9
    ⟨1, 1, 0, 100000, none, none, none, none, "abierta", ""⟩
    (by decide) (by decide)
  exact ⟨r, h1, h2, h5, h8⟩

/-- C7 counterexample: voiding with `reverse_cash=true` and no open session
succeeds with zero movements posted, but **no** warning is reported: the
service skips the reversal silently (`except ...: pass`) and the view's
success path emits only a `success` message and an unconditional `info`
message claiming an egress was recorded. -/
theorem C7_contraejemplo_sin_advertencia :
    anular_factura
        ⟨10, "001-001", 7, 3, "contado", 1, 30000, "emitida", 1, some 1, none, none,
          [⟨1, "Pasaje Central - Sur", 30000, 0, 30000, some 1, none⟩]⟩
        "motivo" 1 true [] [] [] [] 9 =
      Except.ok
        ⟨⟨10, "001-001", 7, 3, "contado", 1, 30000, "anulada", 1, some 1,
          some "motivo", some 9,
          [⟨1, "Pasaje Central - Sur", 30000, 0, 30000, some 1, none⟩]⟩,
          [], [], []⟩ ∧
    (anular_view_messages true
        ⟨10, "001-001", 7, 3, "contado", 1, 30000, "emitida", 1, some 1, none, none,
          [⟨1, "Pasaje Central - Sur", 30000, 0, 30000, some 1, none⟩]⟩).all
      (fun m => m.1 != "warning") = true ∧
    ("info", "Se registró un egreso en caja para revertir el pago.") ∈
      anular_view_messages true
        ⟨10, "001-001", 7, 3, "contado", 1, 30000, "emitida", 1, some 1, none, none,
          [⟨1, "Pasaje Central - Sur", 30000, 0, 30000, some 1, none⟩]⟩ := by
  refine ⟨by decide, by decide, by decide⟩

/-- C7 (amended): voiding an issued invoice with `reverse_cash=true` while
the actor has no open cash session still succeeds — the invoice becomes
voided and zero cash movements are posted (no retroactive adjustment to any
closed session) — but the skipped reversal is reported by **no** warning: the
service is silent and the view emits only `success`/`info` messages. -/
theorem C7_anulacion_sin_sesion (f : Factura) (motivo : String) (usuario : Nat)
    (sesiones : List SesionCaja) (pasajes : List Pasaje)
    (encomiendas : List Encomienda) (movimientos : List MovimientoCaja) (now : Nat)
    (hestado : f.estado ≠ "anulada")
    (hs : sesiones.filter (abiertaDe usuario) = []) :
    ∃ r, anular_factura f motivo usuario true sesiones pasajes encomiendas
        movimientos now = Except.ok r ∧
      r.factura.estado = "anulada" ∧
      r.movimientos = movimientos ∧
      r.encomiendas = encomiendas ∧
      (∀ m ∈ anular_view_messages true f, m.1 ≠ "warning") := by
  have hb : (f.estado == "anulada") = false := beq_eq_false_iff_ne.mpr hestado
  have hget : djangoGet sesiones (abiertaDe usuario) =
      Except.error GetError.doesNotExist := by
    unfold djangoGet
    rw [hs]
  refine ⟨⟨{ f with
        estado := "anulada"
        fecha_anulacion := some now
        motivo_anulacion := some motivo },
      pasajes.map (cancelar_pasaje_si_detalle f.detalles motivo now), encomiendas,
      movimientos⟩, ?_, rfl, rfl, rfl, ?_⟩
  · simp [anular_factura, hb, hget]
  · intro m hm
    simp [anular_view_messages] at hm
    rcases hm with rfl | rfl <;> simp

/-- Witness for C7 (amended): a concrete issued invoice voided by a cashier
with no sessions at all. -/
theorem C7_anulacion_sin_sesion_witness :
    ∃ r, anular_factura
        ⟨11, "001-001", 8, 3, "contado", 1, 55000, "emitida", 2, none, none, none,
          [⟨1, "Encomienda caja - ENC2", 55000, 10, 55000, none, some 4⟩]⟩
        "duplicado" 2 true [] [] [⟨4, "ENC2", "caja", "en_transito", 55000⟩] [] 3 =
      Except.ok r ∧
      r.factura.estado = "anulada" ∧
      r.movimientos = [] ∧
      r.encomiendas = [⟨4, "ENC2", "caja", "en_transito", 55000⟩] := by
  obtain ⟨r, h1, h2, h3, h4, _⟩ := C7_anulacion_sin_sesion
    ⟨11, "001-001", 8, 3, "contado", 1, 55000, "emitida", 2, none, none, none,
      [⟨1, "Encomienda caja - ENC2", 55000, 10, 55000, none, some 4⟩]⟩
    "duplicado" 2 [] [] [⟨4, "ENC2", "caja", "en_transito", 55000⟩] [] 3
    (by decide) (by decide)
  exact ⟨r, h1, h2, h3, h4⟩

/-! ## Amount in words (`FacturacionService.numero_a_letras`,
operations/services.py).  Python list indexing raises `IndexError` out of
range; the lookup tables are therefore embedded with `List.get?` and the
functions return `none` exactly where the source raises. -/

def unidades : List String :=
  ["", "UN", "DOS", "TRES", "CUATRO", "CINCO", "SEIS", "SIETE", "OCHO", "NUEVE"]

def decenas : List String :=
  ["", "DIEZ", "VEINTE", "TREINTA", "CUARENTA", "CINCUENTA",
   "SESENTA", "SETENTA", "OCHENTA", "NOVENTA"]

def centenas : List String :=
  ["", "CIENTO", "DOSCIENTOS", "TRESCIENTOS", "CUATROCIENTOS",
   "QUINIENTOS", "SEISCIENTOS", "SETECIENTOS", "OCHOCIENTOS", "NOVECIENTOS"]

/-- The `especiales` dictionary (11–19). -/
def especiales : Nat → Option String
  | 11 => some "ONCE"
  | 12 => some "DOCE"
  | 13 => some "TRECE"
  | 14 => some "CATORCE"
  | 15 => some "QUINCE"
  | 16 => some "DIECISÉIS"
  | 17 => some "DIECISIETE"
  | 18 => some "DIECIOCHO"
  | 19 => some "DIECINUEVE"
  | _ => none

/-- `convertir_grupo`, the inner three-digit converter of
`numero_a_letras`. -/
def convertir_grupo (n : Nat) : Option String :=
  if n == 0 then some ""
  else if n == 100 then some "CIEN"
  else
    let paso1 : Option (String × Nat) :=
      if n ≥ 100 then
        match centenas.get? (n / 100) with
        | none => none
        | some c => some ((if n % 100 > 0 then c ++ " " else c), n % 100)
      else some ("", n)
    match paso1 with
    | none => none
    | some (resultado, n2) =>
      match especiales n2 with
      | some e => some (resultado ++ e)
      | none =>
        if n2 ≥ 10 then
          if n2 == 20 then some (resultado ++ "VEINTE")
          else if 21 ≤ n2 ∧ n2 ≤ 29 then
            match unidades.get? (n2 - 20) with
            | none => none
            | some u => some (resultado ++ "VEINTI" ++ u)
          else
            match decenas.get? (n2 / 10) with
            | none => none
            | some d =>
              if n2 % 10 > 0 then
                match unidades.get? (n2 % 10) with
                | none => none
                | some u => some (resultado ++ d ++ " Y " ++ u)
              else some (resultado ++ d)
        else if n2 > 0 then
          match unidades.get? n2 with
          | none => none
          | some u => some (resultado ++ u)
        else some resultado

/-- `FacturacionService.numero_a_letras`: 0 maps to "CERO GUARANÍES";
otherwise the text is assembled from the units / thousands / millions
groups — the millions branch recursing on the remainder modulo 1000000 and
stripping the recursive result's currency suffix — and `" GUARANÍES"` is
appended. -/
def numero_a_letras (numero : Nat) : Option String :=
  if numero == 0 then some "CERO GUARANÍES"
  else
    match (if _h1 : numero < 1000 then convertir_grupo numero
      else if _h2 : numero < 1000000 then
        match (if numero / 1000 == 1 then some "MIL"
          else match convertir_grupo (numero / 1000) with
            | none => none
            | some t => some (t ++ " MIL")) with
        | none => none
        | some texto =>
          if numero % 1000 > 0 then
            match convertir_grupo (numero % 1000) with
            | none => none
            | some r => some (texto ++ " " ++ r)
          else some texto
      else
        match (if numero / 1000000 == 1 then some "UN MILLÓN"
          else match convertir_grupo (numero / 1000000) with
            | none => none
            | some t => some (t ++ " MILLONES")) with
        | none => none
        | some texto =>
          if numero % 1000000 > 0 then
            match numero_a_letras (numero % 1000000) with
            | none => none
            | some r => some (texto ++ " " ++ r.replace " GUARANÍES" "")
          else some texto) with
    | none => none
    | some texto => some (texto ++ " GUARANÍES")
termination_by numero
decreasing_by
  simp_wf
  omega

set_option maxRecDepth 100000 in
theorem convertir_grupo_isSome : ∀ m, m < 1000 → (convertir_grupo m).isSome = true := by
  decide

theorem append_guaranies_ne_empty (u : String) : u ++ " GUARANÍES" ≠ "" := by
  intro hc
  have hlen : (u ++ " GUARANÍES").length = (0 : Nat) := by rw [hc]; rfl
  rw [String.length_append] at hlen
  have h10 : (" GUARANÍES" : String).length = 10 := by decide
  omega

theorem numero_a_letras_termina :
    ∀ n, n < 1000000000 → ∃ t, numero_a_letras n = some (t ++ " GUARANÍES") := by
  intro n
  induction n using Nat.strong_induction_on with
  | _ n ih =>
    intro h9
    by_cases h0 : n = 0
    · subst h0
      refine ⟨"CERO", ?_⟩
      have he : ("CERO" ++ " GUARANÍES" : String) = "CERO GUARANÍES" := by decide
      rw [he]
      simp [numero_a_letras]
    · have hb : (n == 0) = false := beq_eq_false_iff_ne.mpr h0
      rcases Nat.lt_or_ge n 1000 with h1 | h1
      · obtain ⟨t, ht⟩ := Option.isSome_iff_exists.mp (convertir_grupo_isSome n h1)
        exact ⟨t, by simp [numero_a_letras, hb, h1, ht]⟩
      · have h1x : ¬ n < 1000 := Nat.not_lt.mpr h1
        rcases Nat.lt_or_ge n 1000000 with h2 | h2
        · have hmr : n / 1000 < 1000 := by omega
          have hrr : n % 1000 < 1000 := by omega
          by_cases hm1 : n / 1000 = 1
          · by_cases hr0 : n % 1000 = 0
            · exact ⟨"MIL", by simp [numero_a_letras, hb, h1x, h2, hm1, hr0]⟩
            · obtain ⟨r, hr⟩ :=
                Option.isSome_iff_exists.mp (convertir_grupo_isSome (n % 1000) hrr)
              exact ⟨"MIL" ++ " " ++ r,
                by simp [numero_a_letras, hb, h1x, h2, hm1, hr, Nat.pos_of_ne_zero hr0]⟩
          · obtain ⟨tm, htm⟩ :=
              Option.isSome_iff_exists.mp (convertir_grupo_isSome (n / 1000) hmr)
            by_cases hr0 : n % 1000 = 0
            · exact ⟨tm ++ " MIL",
                by simp [numero_a_letras, hb, h1x, h2, hm1, htm, hr0]⟩
            · obtain ⟨r, hr⟩ :=
                Option.isSome_iff_exists.mp (convertir_grupo_isSome (n % 1000) hrr)
              exact ⟨tm ++ " MIL" ++ " " ++ r,
                by simp [numero_a_letras, hb, h1x, h2, hm1, htm, hr,
                  Nat.pos_of_ne_zero hr0]⟩
        · have h2x : ¬ n < 1000000 := Nat.not_lt.mpr h2
          have hmr : n / 1000000 < 1000 := by omega
          have hrlt : n % 1000000 < n := by omega
          have hrb : n % 1000000 < 1000000000 := by omega
          by_cases hm1 : n / 1000000 = 1
          · by_cases hr0 : n % 1000000 = 0
            · exact ⟨"UN MILLÓN",
                by simp [numero_a_letras, hb, h1x, h2x, hm1, hr0]⟩
            · obtain ⟨r, hr⟩ := ih (n % 1000000) hrlt hrb
              exact ⟨"UN MILLÓN" ++ " " ++ (r ++ " GUARANÍES").replace " GUARANÍES" "",
                by simp [numero_a_letras, hb, h1x, h2x, hm1, hr,
                  Nat.pos_of_ne_zero hr0]⟩
          · obtain ⟨tm, htm⟩ :=
              Option.isSome_iff_exists.mp (convertir_grupo_isSome (n / 1000000) hmr)
            by_cases hr0 : n % 1000000 = 0
            · exact ⟨tm ++ " MILLONES",
                by simp [numero_a_letras, hb, h1x, h2x, hm1, htm, hr0]⟩
            · obtain ⟨r, hr⟩ := ih (n % 1000000) hrlt hrb
              exact ⟨tm ++ " MILLONES" ++ " " ++ (r ++ " GUARANÍES").replace " GUARANÍES" "",
                by simp [numero_a_letras, hb, h1x, h2x, hm1, htm, hr,
                  Nat.pos_of_ne_zero hr0]⟩

/-- C9 (amended): `numero_a_letras` terminates on every input (its only
recursive call, in the millions branch, is on the remainder modulo 1000000,
strictly smaller — witnessed by this total embedding), returns exactly
"CERO GUARANÍES" for 0, and for every input **below 10^9** returns a
non-empty string ending in " GUARANÍES".  (From 10^9 on the hundreds-table
lookup is out of range and the source raises `IndexError` instead of
returning a string — see the counterexample.) -/
theorem C9_numero_a_letras_total (n : Nat) (h9 : n < 1000000000) :
    numero_a_letras 0 = some "CERO GUARANÍES" ∧
    ∃ t, numero_a_letras n = some t ∧ t ≠ "" ∧ ∃ u, t = u ++ " GUARANÍES" := by
  constructor
  · simp [numero_a_letras]
  · obtain ⟨u, hu⟩ := numero_a_letras_termina n h9
    exact ⟨u ++ " GUARANÍES", hu, append_guaranies_ne_empty u, u, rfl⟩

/-- Witness for C9 (amended) at 1234567 guaraníes. -/
theorem C9_numero_a_letras_total_witness :
    numero_a_letras 0 = some "CERO GUARANÍES" ∧
    ∃ t, numero_a_letras 1234567 = some t ∧ t ≠ "" ∧ ∃ u, t = u ++ " GUARANÍES" :=
  C9_numero_a_letras_total 1234567 (by norm_num)

/-- C9 counterexample: at 10^9 ("MIL MILLONES") the millions group is 1000,
`centenas[1000 // 100]` is out of range, and the source raises `IndexError`:
no string is returned, refuting "for every input returns a non-empty string
ending in GUARANÍES". -/
theorem C9_contraejemplo_mil_millones : numero_a_letras 1000000000 = none := by
  rw [numero_a_letras]
  norm_num
  decide

/-! ## Current license lookup (`Timbrado.esta_vigente`, operations/models.py;
`FacturacionService.obtener_timbrado_vigente`, operations/services.py) -/

/-- `Timbrado.esta_vigente`: active and today inside
`[fecha_inicio, fecha_fin]` (the date read from the clock is passed
explicitly). -/
def esta_vigente (t : Timbrado) (hoy : Int) : Bool :=
  decide (t.fecha_inicio ≤ hoy) && decide (hoy ≤ t.fecha_fin) && t.activo

/-- Insertion step for the model's default ordering `['-fecha_inicio']`
(latest start first). -/
def insertarPorFechaDesc (t : Timbrado) : List Timbrado → List Timbrado
  | [] => [t]
  | u :: us =>
    if u.fecha_inicio ≤ t.fecha_inicio then t :: u :: us
    else u :: insertarPorFechaDesc t us

/-- The queryset's default ordering `['-fecha_inicio']`. -/
def ordenarPorFechaDesc : List Timbrado → List Timbrado
  | [] => []
  | t :: ts => insertarPorFechaDesc t (ordenarPorFechaDesc ts)

/-- `FacturacionService.obtener_timbrado_vigente`: filter on
`activo=True, fecha_inicio__lte=hoy, fecha_fin__gte=hoy`, narrow to the
company when one is supplied, and return `queryset.first()` (the head under
the model's `-fecha_inicio` ordering), or `None` when the queryset is
empty. -/
def obtener_timbrado_vigente (timbrados : List Timbrado) (hoy : Int)
    (empresa : Option Nat) : Option Timbrado :=
  let qs := timbrados.filter (fun t =>
    t.activo && decide (t.fecha_inicio ≤ hoy) && decide (t.fecha_fin ≥ hoy))
  let qs2 :=
    match empresa with
    | some e => qs.filter (fun t => t.empresa == some e)
    | none => qs
  (ordenarPorFechaDesc qs2).head?

theorem insertarPorFechaDesc_ne_nil (t : Timbrado) (l : List Timbrado) :
    insertarPorFechaDesc t l ≠ [] := by
  cases l with
  | nil => simp [insertarPorFechaDesc]
  | cons u us =>
    unfold insertarPorFechaDesc
    split <;> simp

theorem mem_insertarPorFechaDesc {x t : Timbrado} {l : List Timbrado} :
    x ∈ insertarPorFechaDesc t l ↔ x = t ∨ x ∈ l := by
  induction l with
  | nil => simp [insertarPorFechaDesc]
  | cons u us ih =>
    unfold insertarPorFechaDesc
    split
    · simp
    · simp [ih]
      tauto

theorem mem_ordenarPorFechaDesc {x : Timbrado} {l : List Timbrado} :
    x ∈ ordenarPorFechaDesc l ↔ x ∈ l := by
  induction l with
  | nil => simp [ordenarPorFechaDesc]
  | cons t ts ih =>
    simp [ordenarPorFechaDesc, mem_insertarPorFechaDesc, ih]

theorem ordenarPorFechaDesc_eq_nil {l : List Timbrado} :
    ordenarPorFechaDesc l = [] ↔ l = [] := by
  cases l with
  | nil => simp [ordenarPorFechaDesc]
  | cons t ts => simp [ordenarPorFechaDesc, insertarPorFechaDesc_ne_nil]

theorem head?_ordenarPorFechaDesc_mem {l : List Timbrado} {t : Timbrado}
    (h : (ordenarPorFechaDesc l).head? = some t) : t ∈ l := by
  cases hcase : ordenarPorFechaDesc l with
  | nil => rw [hcase] at h; cases h
  | cons a l2 =>
    rw [hcase] at h
    simp only [List.head?_cons, Option.some.injEq] at h
    subst h
    have hmem : a ∈ ordenarPorFechaDesc l := by
      rw [hcase]
      exact List.mem_cons_self _ _
    exact mem_ordenarPorFechaDesc.mp hmem

/-- C10: the current-license lookup returns `None` exactly when no license is
active with today inside its validity window (and matching the company when
one is supplied); and any license it returns is a member of the registry,
satisfies `esta_vigente`, and matches the supplied company. -/
theorem C10_timbrado_vigente (timbrados : List Timbrado) (hoy : Int)
    (empresa : Option Nat) :
    (obtener_timbrado_vigente timbrados hoy empresa = none ↔
      ∀ t ∈ timbrados, ¬(esta_vigente t hoy = true ∧
        ∀ e, empresa = some e → t.empresa = some e)) ∧
    (∀ t, obtener_timbrado_vigente timbrados hoy empresa = some t →
      t ∈ timbrados ∧ esta_vigente t hoy = true ∧
        ∀ e, empresa = some e → t.empresa = some e) := by
  have hpred : ∀ t : Timbrado,
      ((t.activo && decide (t.fecha_inicio ≤ hoy) && decide (t.fecha_fin ≥ hoy)) = true)
        ↔ esta_vigente t hoy = true := by
    intro t
    simp [esta_vigente, ge_iff_le]
    tauto
  have hqs2 : ∀ t : Timbrado,
      (t ∈ (match empresa with
        | some e =>
          (timbrados.filter (fun t : Timbrado =>
            t.activo && decide (t.fecha_inicio ≤ hoy) && decide (t.fecha_fin ≥ hoy))).filter
              (fun t : Timbrado => t.empresa == some e)
        | none =>
          timbrados.filter (fun t : Timbrado =>
            t.activo && decide (t.fecha_inicio ≤ hoy) && decide (t.fecha_fin ≥ hoy)))) ↔
      (t ∈ timbrados ∧ esta_vigente t hoy = true ∧
        ∀ e, empresa = some e → t.empresa = some e) := by
    intro t
    cases empresa with
    | none =>
      simp only [List.mem_filter, hpred]
      constructor
      · rintro ⟨hm, hv⟩
        exact ⟨hm, hv, by rintro e he; cases he⟩
      · rintro ⟨hm, hv, _⟩
        exact ⟨hm, hv⟩
    | some e =>
      simp only [List.mem_filter, hpred]
      constructor
      · rintro ⟨⟨hm, hv⟩, hemp⟩
        refine ⟨hm, hv, ?_⟩
        rintro e2 he2
        rcases Option.some.inj he2 with rfl
        simpa using hemp
      · rintro ⟨hm, hv, hemp⟩
        refine ⟨⟨hm, hv⟩, ?_⟩
        simpa using hemp e rfl
  constructor
  · unfold obtener_timbrado_vigente
    rw [List.head?_eq_none_iff, ordenarPorFechaDesc_eq_nil, List.eq_nil_iff_forall_not_mem]
    constructor
    · intro hnone t hmem hprop
      cases empresa with
      | none => exact hnone t ((hqs2 t).mpr ⟨hmem, hprop⟩)
      | some e => exact hnone t ((hqs2 t).mpr ⟨hmem, hprop⟩)
    · intro hall t hmem
      have := (hqs2 t).mp hmem
      exact hall t this.1 ⟨this.2.1, this.2.2⟩
  · intro t ht
    unfold obtener_timbrado_vigente at ht
    exact (hqs2 t).mp (head?_ordenarPorFechaDesc_mem ht)

/-- Witness for C10: with one currently valid license and one expired one,
the lookup returns the valid license, which satisfies `esta_vigente`. -/
theorem C10_timbrado_vigente_witness :
    obtener_timbrado_vigente
        [⟨some 1, "T1", 0, 100, 1, 100, "001-001", true⟩,
         ⟨some 1, "T0", -50, -10, 1, 50, "001-001", true⟩] 10 none =
      some ⟨some 1, "T1", 0, 100, 1, 100, "001-001", true⟩ ∧
    esta_vigente ⟨some 1, "T1", 0, 100, 1, 100, "001-001", true⟩ 10 = true := by
  refine ⟨by decide, ?_⟩
  exact ((C10_timbrado_vigente
    [⟨some 1, "T1", 0, 100, 1, 100, "001-001", true⟩,
     ⟨some 1, "T0", -50, -10, 1, 50, "001-001", true⟩] 10 none).2
    ⟨some 1, "T1", 0, 100, 1, 100, "001-001", true⟩ (by decide)).2.1

end Tr4cking
